import Mathlib

/-!
Shallow embedding of the Naoris `DeviceHeartbeatBot` (src/index.js).

The bot drives one account against a remote API: it toggles the device
state, emits heartbeats, polls wallet details, and runs a recurring
60-second timer cycle.  Remote calls are modelled by `Except String r`
values supplied by the environment: `.ok resp` stands for a resolved
HTTP request (2xx, body `resp`), `.error msg` for a thrown transport
error (network failure or non-2xx status, which the underlying
`cloudscraper` client rejects).  Console output and state mutation are
made explicit: each method returns the updated agent state together
with the list of observable events it produced.
-/

namespace Naoris

/-- One record of `accounts.json` (src/index.js line 9). -/
structure Account where
  walletAddress : String
  token : String
  deviceHash : String
deriving DecidableEq, Repr

/-- `proxy.startsWith('http')` (src/index.js line 30), computed on the
character list so that it evaluates by kernel reduction. -/
def startsWithHttp (proxy : String) : Bool :=
  "http".data.isPrefixOf proxy.data

/-- `formatProxy` (src/index.js lines 29-31):
`proxy.startsWith('http') ? proxy : 'http://' + proxy`. -/
def formatProxy (proxy : String) : String :=
  if startsWithHttp proxy then proxy else "http://" ++ proxy

/-- The mutable per-agent state plus the immutable fields set by the
`DeviceHeartbeatBot` constructor (src/index.js lines 9-27).  `timerActive`
models whether the recurring `setInterval` timer of
`startHeartbeatCycle` is registered and not yet cleared. -/
structure Agent where
  account : Account
  proxyConfig : Option String
  uptimeMinutes : Nat
  cycleCount : Nat
  deviceHash : String
  toggleState : Bool
  isInstalled : Bool
  whitelistedUrls : List String
  timerActive : Bool
deriving DecidableEq, Repr

/-- The `DeviceHeartbeatBot` constructor (src/index.js lines 9-27). -/
def newBot (account : Account) (proxyConfig : Option String) : Agent :=
  { account := account
    proxyConfig := proxyConfig.map formatProxy
    uptimeMinutes := 0
    cycleCount := 0
    deviceHash := account.deviceHash
    toggleState := true
    whitelistedUrls := ["naorisprotocol.network", "google.com"]
    isInstalled := true
    timerActive := false }

/-- A resolved response body from the toggle or heartbeat endpoint.  The
code never inspects these bodies (it only logs them raw), but the API may
report an error in the body of a 2xx response, as the wallet endpoint
demonstrably does. -/
structure ApiResponse where
  error : Bool
deriving DecidableEq, Repr

/-- The `details` object of a wallet-details response
(src/index.js lines 182-189).  `activeRatePerMinute` is `none` when the
field is absent from the JSON object. -/
structure WalletDetails where
  totalEarnings : ℚ
  todayEarnings : ℚ
  activeRatePerMinute : Option ℚ
deriving DecidableEq, Repr

/-- A resolved wallet-details response (src/index.js lines 124-128). -/
structure WalletResponse where
  error : Bool
  details : WalletDetails
deriving DecidableEq, Repr

/-- The heartbeat payload's `inputData` together with its `topic`
(src/index.js lines 91-100). -/
structure HeartbeatPayload where
  topic : String
  walletAddress : String
  deviceHash : String
  isInstalled : Bool
  toggleState : Bool
  whitelistedUrls : List String
deriving DecidableEq, Repr

/-- Observable events: outbound requests and console log lines. -/
inductive Event where
  | toggleCall (state : String)
  | toggleSuccess (resp : ApiResponse)
  | toggleError (msg : String)
  | heartbeatCall (payload : HeartbeatPayload)
  | heartbeatSuccess (resp : ApiResponse)
  | heartbeatError (msg : String)
  | walletCall
  | walletReport (earnings : ℚ)
  | walletError
  | walletFetchError (msg : String)
  | wakeupLog
  | uptimeLog (minutes : Nat)
  | cycleErrorLog
  | timerStarted
  | timerCleared
  | processExit
deriving DecidableEq, Repr

/-- `toggleDevice(state)` (src/index.js lines 65-86).  The request is
issued; if it resolves, `this.toggleState = state === "ON"` runs and
success is logged; if it throws, the error is logged and nothing else
happens. -/
def toggleDevice (state : String) (result : Except String ApiResponse)
    (s : Agent) : Agent × List Event :=
  match result with
  | .ok resp =>
      ({ s with toggleState := state == "ON" },
       [.toggleCall state, .toggleSuccess resp])
  | .error e => (s, [.toggleCall state, .toggleError e])

/-- The heartbeat payload built by `sendHeartbeat` (src/index.js
lines 91-100) from the current agent state. -/
def heartbeatPayload (s : Agent) : HeartbeatPayload :=
  { topic := "device-heartbeat"
    walletAddress := s.account.walletAddress
    deviceHash := s.deviceHash
    isInstalled := s.isInstalled
    toggleState := s.toggleState
    whitelistedUrls := s.whitelistedUrls }

/-- `sendHeartbeat()` (src/index.js lines 88-113): posts the payload;
logs success or failure; never mutates agent state; failures are
swallowed. -/
def sendHeartbeat (result : Except String ApiResponse) (s : Agent) :
    Agent × List Event :=
  match result with
  | .ok resp => (s, [.heartbeatCall (heartbeatPayload s), .heartbeatSuccess resp])
  | .error e => (s, [.heartbeatCall (heartbeatPayload s), .heartbeatError e])

/-- The earnings figure computed by `logWalletDetails`
(src/index.js line 183):
`this.uptimeMinutes * (details.activeRatePerMinute || 0)`. -/
def estimatedSessionEarnings (uptimeMinutes : Nat) (details : WalletDetails) : ℚ :=
  (uptimeMinutes : ℚ) * (details.activeRatePerMinute.getD 0)

/-- `getWalletDetails()` (src/index.js lines 115-132): posts the wallet
request; on `!response.error` logs the wallet report (which computes the
estimated session earnings); on a body-reported error or a thrown error,
logs and changes nothing. -/
def getWalletDetails (result : Except String WalletResponse) (s : Agent) :
    Agent × List Event :=
  match result with
  | .ok resp =>
      if !resp.error then
        (s, [.walletCall,
             .walletReport (estimatedSessionEarnings s.uptimeMinutes resp.details)])
      else (s, [.walletCall, .walletError])
  | .error e => (s, [.walletCall, .walletFetchError e])

/-- The remote-call outcomes one timer tick can observe, plus
`cycleThrows` modelling an unexpected exception escaping the tick body
(the `catch (cycleError)` branch, src/index.js lines 156-160): the two
counter increments are the first statements of the tick and cannot
throw, so a cycle-level exception is modelled as thrown right after
them. -/
structure TickEnv where
  toggleResult : Except String ApiResponse
  heartbeatResult : Except String ApiResponse
  walletResult : Except String WalletResponse
  cycleThrows : Bool

/-- The body of one `setInterval` tick after the counter increments
(src/index.js lines 145-155): optional wake-up log, re-toggle `"ON"` if
the device is marked off, heartbeat, wallet details, uptime log. -/
def tickBody (env : TickEnv) (s : Agent) : Agent × List Event :=
  let wake : List Event := if s.cycleCount % 5 == 0 then [.wakeupLog] else []
  let r1 := if s.toggleState then (s, ([] : List Event))
            else toggleDevice "ON" env.toggleResult s
  let r2 := sendHeartbeat env.heartbeatResult r1.1
  let r3 := getWalletDetails env.walletResult r2.1
  (r3.1, wake ++ r1.2 ++ r2.2 ++ r3.2 ++ [.uptimeLog r3.1.uptimeMinutes])

/-- One full timer tick (src/index.js lines 140-161): increments
`cycleCount` and `uptimeMinutes`, then runs the body; if the body throws,
the catch logs the cycle error and sets `toggleState = false`.  The
timer itself is never cleared by a tick. -/
def tick (env : TickEnv) (s : Agent) : Agent × List Event :=
  let s0 : Agent :=
    { s with cycleCount := s.cycleCount + 1, uptimeMinutes := s.uptimeMinutes + 1 }
  if env.cycleThrows then
    ({ s0 with toggleState := false }, [.cycleErrorLog])
  else tickBody env s0

/-- Outcomes of the two opening calls of `startHeartbeatCycle`. -/
structure StartEnv where
  toggleResult : Except String ApiResponse
  heartbeatResult : Except String ApiResponse

/-- The opening of `startHeartbeatCycle` (src/index.js lines 134-140):
one immediate `toggleDevice("ON")`, one `sendHeartbeat()`, then the
recurring timer is registered. -/
def startHeartbeatCycle (env : StartEnv) (s : Agent) : Agent × List Event :=
  let r1 := toggleDevice "ON" env.toggleResult s
  let r2 := sendHeartbeat env.heartbeatResult r1.1
  ({ r2.1 with timerActive := true }, r1.2 ++ r2.2 ++ [.timerStarted])

/-- The per-agent SIGINT handler registered by `startHeartbeatCycle`
(src/index.js lines 163-168): clears the timer, issues one best-effort
`toggleDevice("OFF")`, logs the final uptime, and exits. -/
def sigintHandler (offResult : Except String ApiResponse) (s : Agent) :
    Agent × List Event :=
  let s1 : Agent := { s with timerActive := false }
  let r := toggleDevice "OFF" offResult s1
  (r.1, .timerCleared :: (r.2 ++ [.processExit]))

/-- One observable operation on an agent, each tagged with the remote
outcomes the environment supplies for it. -/
inductive BotOp where
  | startCycle (env : StartEnv)
  | toggle (state : String) (result : Except String ApiResponse)
  | heartbeat (result : Except String ApiResponse)
  | walletDetails (result : Except String WalletResponse)
  | timerTick (env : TickEnv)
  | sigint (offResult : Except String ApiResponse)

/-- Dispatch one operation to the method it names. -/
def applyOp (op : BotOp) (s : Agent) : Agent × List Event :=
  match op with
  | .startCycle env => startHeartbeatCycle env s
  | .toggle state result => toggleDevice state result s
  | .heartbeat result => sendHeartbeat result s
  | .walletDetails result => getWalletDetails result s
  | .timerTick env => tick env s
  | .sigint offResult => sigintHandler offResult s

/-- Run a sequence of operations, keeping only the final state. -/
def runOps : List BotOp → Agent → Agent
  | [], s => s
  | op :: ops, s => runOps ops (applyOp op s).1

/-- Proxy assignment of `main` (src/index.js line 211):
`proxies.length ? proxies[index % proxies.length] : null`. -/
def assignProxy (proxies : List String) (index : Nat) : Option String :=
  match proxies with
  | [] => none
  | _ => proxies.get? (index % proxies.length)

/-- The fleet built by `main` (src/index.js lines 210-213): one bot per
account, proxies assigned round-robin. -/
def makeBots (accounts : List Account) (proxies : List String) : List Agent :=
  accounts.enum.map fun p => newBot p.2 (assignProxy proxies p.1)

/-- All SIGINT handlers firing, one per agent in registration order,
each with its own best-effort OFF-toggle outcome. -/
def fleetSigint (offs : List (Except String ApiResponse)) (bots : List Agent) :
    List (Agent × List Event) :=
  (offs.zip bots).map fun p => sigintHandler p.1 p.2

/-- The four key actions of one tick, used to state ordering properties. -/
inductive TickAction where
  | toggleOn
  | heartbeat
  | wallet
  | uptimeLogged
deriving DecidableEq, Repr

/-- Classify an event as one of the four key tick actions, dropping pure
log lines and per-call success/failure reports. -/
def keyAction : Event → Option TickAction
  | .toggleCall state => if state == "ON" then some .toggleOn else none
  | .heartbeatCall _ => some .heartbeat
  | .walletCall => some .wallet
  | .uptimeLog _ => some .uptimeLogged
  | _ => none

/-- The sequence of key actions of a trace, in order. -/
def keyTrace (es : List Event) : List TickAction :=
  es.filterMap keyAction

/-- Number of timer ticks in an operation sequence. -/
def countTicks (ops : List BotOp) : Nat :=
  ops.countP fun op => match op with | .timerTick _ => true | _ => false

/-- Number of `toggleDevice("OFF")` requests issued in a trace. -/
def countOffToggles (es : List Event) : Nat :=
  es.countP fun e => match e with | .toggleCall state => state == "OFF" | _ => false

/-- The operations that set `toggleState` to `true`: a `toggleDevice`
call with state `"ON"` whose request resolves, whether issued directly,
by the opening of `startHeartbeatCycle`, or re-issued inside a tick. -/
def isSuccessfulOnToggle : BotOp → Prop
  | .toggle state (.ok _) => state = "ON"
  | .startCycle env => ∃ r, env.toggleResult = Except.ok r
  | .timerTick env => env.cycleThrows = false ∧ ∃ r, env.toggleResult = Except.ok r
  | _ => False

/-- Whether `pat` occurs as a contiguous substring of `l`. -/
def containsSeq (pat : List Char) : List Char → Bool
  | [] => pat.isPrefixOf []
  | c :: rest => pat.isPrefixOf (c :: rest) || containsSeq pat rest

/-- Modelled from the spec's words, for comparison with `formatProxy` in
the refinement claim about proxy handling: a proxy string "carries a
scheme" when it contains the `://` separator. -/
def specHasScheme (proxy : String) : Bool :=
  containsSeq "://".data proxy.data

/-- A sample account used for concrete witnesses. -/
def sampleAccount : Account :=
  { walletAddress := "0xA", token := "t1", deviceHash := "d1" }

/-- A freshly constructed bot whose device is marked off, as after a
throwing cycle. -/
def offAgent : Agent :=
  { newBot sampleAccount none with toggleState := false }

/-- A bot that has accumulated four minutes of uptime. -/
def uptime4Agent : Agent :=
  { newBot sampleAccount none with uptimeMinutes := 4 }

/-- The wallet-details response of the spec's worked scenario. -/
def sampleWalletResp : WalletResponse :=
  { error := false
    details := { totalEarnings := 10, todayEarnings := 2, activeRatePerMinute := some (1/2) } }

/-- A no-error wallet-details response whose details lack the
`activeRatePerMinute` field. -/
def noRateResp : WalletResponse :=
  { error := false
    details := { totalEarnings := 10, todayEarnings := 2, activeRatePerMinute := none } }

/-! ### Basic lemmas about the individual methods -/

theorem sendHeartbeat_fst (r : Except String ApiResponse) (s : Agent) :
    (sendHeartbeat r s).1 = s := by
  cases r <;> rfl

theorem getWalletDetails_fst (r : Except String WalletResponse) (s : Agent) :
    (getWalletDetails r s).1 = s := by
  cases r with
  | ok resp => cases h : resp.error <;> simp [getWalletDetails, h]
  | error e => rfl

theorem toggleDevice_fst_ok (state : String) (resp : ApiResponse) (s : Agent) :
    (toggleDevice state (Except.ok resp) s).1 = { s with toggleState := state == "ON" } :=
  rfl

theorem toggleDevice_fst_error (state : String) (e : String) (s : Agent) :
    (toggleDevice state (Except.error e) s).1 = s :=
  rfl

theorem tick_uptime (env : TickEnv) (s : Agent) :
    (tick env s).1.uptimeMinutes = s.uptimeMinutes + 1 := by
  cases hc : env.cycleThrows with
  | true => simp [tick, hc]
  | false =>
      cases ht : s.toggleState <;> cases hr : env.toggleResult <;>
        simp [tick, hc, tickBody, ht, hr, toggleDevice,
          sendHeartbeat_fst, getWalletDetails_fst]

theorem applyOp_uptime (op : BotOp) (s : Agent) :
    (applyOp op s).1.uptimeMinutes =
      s.uptimeMinutes + (match op with | .timerTick _ => 1 | _ => 0) := by
  cases op with
  | startCycle env =>
      cases h : env.toggleResult <;>
        simp [applyOp, startHeartbeatCycle, toggleDevice, sendHeartbeat_fst, h]
  | toggle state result => cases result <;> simp [applyOp, toggleDevice]
  | heartbeat result => simp [applyOp, sendHeartbeat_fst]
  | walletDetails result => simp [applyOp, getWalletDetails_fst]
  | timerTick env => simpa [applyOp] using tick_uptime env s
  | sigint r => cases r <;> simp [applyOp, sigintHandler, toggleDevice]

set_option linter.unnecessarySeqFocus false in
theorem runOps_uptime (ops : List BotOp) (s : Agent) :
    (runOps ops s).uptimeMinutes = s.uptimeMinutes + countTicks ops := by
  induction ops generalizing s with
  | nil => simp [runOps, countTicks]
  | cons op ops ih =>
      rw [runOps, ih, applyOp_uptime]
      unfold countTicks
      rw [List.countP_cons]
      cases op <;> simp [countTicks] <;> try omega

/-! ### Claim theorems -/

/-- C2: for every freshly constructed agent and every operation
sequence, `uptimeMinutes` after running the sequence equals the number
of timer ticks in it — the counter is incremented exactly once per
timer tick (and by nothing else), regardless of whether the heartbeat
or any other call within a tick succeeds.  In particular after N
completed ticks it equals N. -/
theorem C2_uptime_equals_ticks (acct : Account) (proxy : Option String)
    (ops : List BotOp) :
    (runOps ops (newBot acct proxy)).uptimeMinutes = countTicks ops := by
  rw [runOps_uptime]
  simp [newBot]

/-- C9 counterexample: `"socks5://1.2.3.4:1080"` already carries a
scheme, yet `formatProxy` does not use it unchanged — it prefixes
`http://` because the string does not start with `"http"`. -/
theorem C9_counterexample :
    specHasScheme "socks5://1.2.3.4:1080" = true ∧
    formatProxy "socks5://1.2.3.4:1080" ≠ "socks5://1.2.3.4:1080" := by
  decide

/-- C9 amended: the constructor checks `startsWith('http')`, not scheme
presence: a proxy string beginning with `"http"` is used unchanged, and
any other string (even one carrying a non-http scheme) is prefixed with
`"http://"`; the constructor stores the formatted proxy. -/
theorem C9_format_proxy (proxy : String) (acct : Account) :
    (startsWithHttp proxy = true → formatProxy proxy = proxy) ∧
    (startsWithHttp proxy = false → formatProxy proxy = "http://" ++ proxy) ∧
    (newBot acct (some proxy)).proxyConfig = some (formatProxy proxy) := by
  refine ⟨fun h => ?_, fun h => ?_, rfl⟩ <;> simp [formatProxy, h]

/-- C9 witness: the amended statement evaluated on a schemeless proxy
string. -/
theorem C9_witness :
    startsWithHttp "1.2.3.4:8080" = false ∧
    formatProxy "1.2.3.4:8080" = "http://" ++ "1.2.3.4:8080" :=
  ⟨by decide, (C9_format_proxy "1.2.3.4:8080" sampleAccount).2.1 (by decide)⟩

/-- C1 counterexample: the constructor itself sets `toggleState = true`
(src/index.js line 19): a freshly constructed bot, on which no
`toggleDevice` call has ever run, already has `toggleState = true`, so
its initial value is neither undefined nor the result of an "ON"
toggle call. -/
theorem C1_counterexample :
    (newBot sampleAccount none).toggleState = true := by
  decide

/-- C1 amended: `toggleState` starts out `true` at construction; after
construction it moves from `false` to `true` only through a
`toggleDevice("ON")` request that resolves (issued directly, by the
opening of `startHeartbeatCycle`, or re-issued inside a tick); and it
is set to `false` automatically whenever a timer-tick cycle throws. -/
theorem C1_toggle_state_transitions :
    (∀ acct proxy, (newBot acct proxy).toggleState = true) ∧
    (∀ op s, s.toggleState = false → (applyOp op s).1.toggleState = true →
      isSuccessfulOnToggle op) ∧
    (∀ env s, env.cycleThrows = true →
      (applyOp (BotOp.timerTick env) s).1.toggleState = false) := by
  refine ⟨fun acct proxy => rfl, fun op s hs h => ?_, fun env s hc => ?_⟩
  · cases op with
    | startCycle env =>
        cases hr : env.toggleResult with
        | ok r =>
            exact ⟨r, hr⟩
        | error e =>
            simp [applyOp, startHeartbeatCycle, hr, toggleDevice,
              sendHeartbeat_fst, hs] at h
    | toggle state result =>
        cases result with
        | ok r =>
            simp only [applyOp, toggleDevice] at h
            simpa [isSuccessfulOnToggle] using h
        | error e => simp [applyOp, toggleDevice, hs] at h
    | heartbeat result => simp [applyOp, sendHeartbeat_fst, hs] at h
    | walletDetails result => simp [applyOp, getWalletDetails_fst, hs] at h
    | timerTick env =>
        cases hc : env.cycleThrows with
        | true => simp [applyOp, tick, hc] at h
        | false =>
            cases hr : env.toggleResult with
            | ok r => exact ⟨hc, r, hr⟩
            | error e =>
                simp [applyOp, tick, hc, tickBody, hs, hr, toggleDevice,
                  sendHeartbeat_fst, getWalletDetails_fst] at h
    | sigint r =>
        cases r with
        | ok resp => simp [applyOp, sigintHandler, toggleDevice] at h
        | error e => simp [applyOp, sigintHandler, toggleDevice, hs] at h
  · simp [applyOp, tick, hc]

/-- C1 witness: from a device marked off, a successful direct
`toggleDevice("ON")` is recognised as the (only) kind of operation that
can have set `toggleState` back to `true`. -/
theorem C1_witness :
    offAgent.toggleState = false ∧
    isSuccessfulOnToggle (BotOp.toggle "ON" (Except.ok ⟨false⟩)) :=
  ⟨by decide,
   C1_toggle_state_transitions.2.1 (BotOp.toggle "ON" (Except.ok ⟨false⟩)) offAgent
     (by decide) (by decide)⟩

/-- C3 counterexample: a toggle request that resolves with a body
reporting an API error still updates `toggleState` — here an `"OFF"`
toggle whose response body carries `error = true` flips the state from
`true` to `false` instead of leaving it unchanged, because
`toggleDevice` never inspects the response body. -/
theorem C3_counterexample :
    (newBot sampleAccount none).toggleState = true ∧
    (toggleDevice "OFF" (Except.ok ⟨true⟩) (newBot sampleAccount none)).1.toggleState
      = false := by
  decide

/-- C3 amended: if the toggle request resolves (2xx), `toggleState` is
set to `state == "ON"` regardless of any error reported in the response
body, and success is logged; if the request throws (network error or
non-2xx), the error is logged and the agent state — `toggleState`
included — is left unchanged. -/
theorem C3_toggle_semantics (state : String) (s : Agent) :
    (∀ resp, (toggleDevice state (Except.ok resp) s).1 =
        { s with toggleState := state == "ON" } ∧
      Event.toggleSuccess resp ∈ (toggleDevice state (Except.ok resp) s).2) ∧
    (∀ e, (toggleDevice state (Except.error e) s).1 = s ∧
      Event.toggleError e ∈ (toggleDevice state (Except.error e) s).2) :=
  ⟨fun resp => ⟨rfl, by simp [toggleDevice]⟩,
   fun e => ⟨rfl, by simp [toggleDevice]⟩⟩

theorem heartbeatCall_mem_sendHeartbeat (r : Except String ApiResponse) (s : Agent) :
    Event.heartbeatCall (heartbeatPayload s) ∈ (sendHeartbeat r s).2 := by
  cases r <;> simp [sendHeartbeat]

theorem walletCall_mem_getWalletDetails (r : Except String WalletResponse) (s : Agent) :
    Event.walletCall ∈ (getWalletDetails r s).2 := by
  cases r with
  | ok resp => cases h : resp.error <;> simp [getWalletDetails, h]
  | error e => simp [getWalletDetails]

theorem tick_timerActive (env : TickEnv) (s : Agent) :
    (tick env s).1.timerActive = s.timerActive := by
  cases hc : env.cycleThrows with
  | true => simp [tick, hc]
  | false =>
      cases ht : s.toggleState <;> cases hr : env.toggleResult <;>
        simp [tick, hc, tickBody, ht, hr, toggleDevice,
          sendHeartbeat_fst, getWalletDetails_fst]

theorem tick_trace_decomp (env : TickEnv) (s : Agent) (hc : env.cycleThrows = false) :
    ∃ (wake e1 : List Event) (s1 : Agent),
      (tick env s).2 =
        wake ++ e1 ++ (sendHeartbeat env.heartbeatResult s1).2 ++
          (getWalletDetails env.walletResult s1).2 ++
          [Event.uptimeLog s1.uptimeMinutes] := by
  cases ht : s.toggleState with
  | false =>
      cases hr : env.toggleResult with
      | ok r =>
          refine ⟨if (s.cycleCount + 1) % 5 == 0 then [Event.wakeupLog] else [],
            [Event.toggleCall "ON", Event.toggleSuccess r],
            { s with cycleCount := s.cycleCount + 1,
                     uptimeMinutes := s.uptimeMinutes + 1, toggleState := true }, ?_⟩
          simp [tick, hc, tickBody, ht, hr, toggleDevice,
            sendHeartbeat_fst, getWalletDetails_fst]
      | error e =>
          refine ⟨if (s.cycleCount + 1) % 5 == 0 then [Event.wakeupLog] else [],
            [Event.toggleCall "ON", Event.toggleError e],
            { s with cycleCount := s.cycleCount + 1,
                     uptimeMinutes := s.uptimeMinutes + 1, toggleState := false }, ?_⟩
          simp [tick, hc, tickBody, ht, hr, toggleDevice,
            sendHeartbeat_fst, getWalletDetails_fst]
  | true =>
      refine ⟨if (s.cycleCount + 1) % 5 == 0 then [Event.wakeupLog] else [], [],
        { s with cycleCount := s.cycleCount + 1,
                 uptimeMinutes := s.uptimeMinutes + 1, toggleState := true }, ?_⟩
      simp [tick, hc, tickBody, ht, toggleDevice,
        sendHeartbeat_fst, getWalletDetails_fst]

/-- C4: per-call failures are isolated.  A tick never clears the timer;
when the tick body does not throw, the heartbeat request, the
wallet-details request and the uptime log all happen, whatever the
outcomes of the toggle, heartbeat and wallet calls are; when the tick
body throws, `toggleState` is forced to `false` and the cycle error is
logged, but the timer stays registered.  Likewise the opening of
`startHeartbeatCycle` issues its heartbeat whatever the opening toggle
outcome is. -/
theorem C4_call_isolation (env : TickEnv) (s : Agent) :
    (tick env s).1.timerActive = s.timerActive ∧
    (env.cycleThrows = false →
      (∃ p, Event.heartbeatCall p ∈ (tick env s).2) ∧
      Event.walletCall ∈ (tick env s).2 ∧
      (∃ n, Event.uptimeLog n ∈ (tick env s).2)) ∧
    (env.cycleThrows = true →
      (tick env s).1.toggleState = false ∧
      Event.cycleErrorLog ∈ (tick env s).2) ∧
    (∀ senv : StartEnv, ∃ p,
      Event.heartbeatCall p ∈ (startHeartbeatCycle senv s).2) := by
  refine ⟨tick_timerActive env s, fun hc => ?_, fun hc => ?_, fun senv => ?_⟩
  · obtain ⟨wake, e1, s1, hdec⟩ := tick_trace_decomp env s hc
    rw [hdec]
    refine ⟨⟨heartbeatPayload s1, ?_⟩, ?_, ⟨s1.uptimeMinutes, ?_⟩⟩
    · simp only [List.mem_append]
      exact Or.inl (Or.inl (Or.inr (heartbeatCall_mem_sendHeartbeat _ _)))
    · simp only [List.mem_append]
      exact Or.inl (Or.inr (walletCall_mem_getWalletDetails _ _))
    · simp only [List.mem_append]
      exact Or.inr (by simp)
  · simp [tick, hc]
  · refine ⟨heartbeatPayload (toggleDevice "ON" senv.toggleResult s).1, ?_⟩
    simp only [startHeartbeatCycle, List.mem_append]
    exact Or.inl (Or.inr (heartbeatCall_mem_sendHeartbeat _ _))

/-- C4 witness: the isolation statement evaluated on a tick whose three
remote calls all throw, and on a tick whose body throws. -/
theorem C4_witness :
    ((tick ⟨Except.error "net", Except.error "net", Except.error "net", false⟩
        (newBot sampleAccount none)).1.timerActive
      = (newBot sampleAccount none).timerActive ∧
     (∃ p, Event.heartbeatCall p ∈
        (tick ⟨Except.error "net", Except.error "net", Except.error "net", false⟩
          (newBot sampleAccount none)).2)) ∧
    (tick ⟨Except.error "net", Except.error "net", Except.error "net", true⟩
        (newBot sampleAccount none)).1.toggleState = false :=
  ⟨⟨(C4_call_isolation ⟨Except.error "net", Except.error "net", Except.error "net", false⟩
        (newBot sampleAccount none)).1,
    ((C4_call_isolation ⟨Except.error "net", Except.error "net", Except.error "net", false⟩
        (newBot sampleAccount none)).2.1 rfl).1⟩,
   ((C4_call_isolation ⟨Except.error "net", Except.error "net", Except.error "net", true⟩
        (newBot sampleAccount none)).2.2.1 rfl).1⟩

/-- C5: the wallet report — and with it the estimated session earnings
`uptimeMinutes × activeRatePerMinute` — is produced exactly when the
wallet-details request resolves with `error = false`, and every
reported earnings figure equals that product. -/
theorem C5_wallet_earnings (s : Agent) (result : Except String WalletResponse) :
    (∀ resp, result = Except.ok resp → resp.error = false →
      (getWalletDetails result s).2 =
        [Event.walletCall,
         Event.walletReport (estimatedSessionEarnings s.uptimeMinutes resp.details)]) ∧
    (∀ q, Event.walletReport q ∈ (getWalletDetails result s).2 →
      ∃ resp, result = Except.ok resp ∧ resp.error = false ∧
        q = (s.uptimeMinutes : ℚ) * resp.details.activeRatePerMinute.getD 0) := by
  constructor
  · rintro resp rfl herr
    simp [getWalletDetails, herr]
  · intro q hq
    cases result with
    | ok resp =>
        cases herr : resp.error with
        | false =>
            simp [getWalletDetails, herr] at hq
            exact ⟨resp, rfl, herr, by simpa [estimatedSessionEarnings] using hq⟩
        | true => simp [getWalletDetails, herr] at hq
    | error e => simp [getWalletDetails] at hq

/-- C5 witness: the spec's worked scenario — wallet-details response
`{error: false, details: {totalEarnings: 10, todayEarnings: 2,
activeRatePerMinute: 0.5}}` after 4 minutes of uptime yields an
estimated session earnings of 2. -/
theorem C5_witness :
    sampleWalletResp.error = false ∧
    (getWalletDetails (Except.ok sampleWalletResp) uptime4Agent).2 =
      [Event.walletCall, Event.walletReport 2] := by
  have h := (C5_wallet_earnings uptime4Agent (Except.ok sampleWalletResp)).1
    sampleWalletResp rfl rfl
  refine ⟨rfl, ?_⟩
  rw [h]
  norm_num [estimatedSessionEarnings, sampleWalletResp, uptime4Agent, newBot]

theorem keyTrace_append (a b : List Event) :
    keyTrace (a ++ b) = keyTrace a ++ keyTrace b :=
  List.filterMap_append a b keyAction

theorem keyTrace_nil : keyTrace [] = [] := rfl

theorem keyTrace_wakeup : keyTrace [Event.wakeupLog] = [] := rfl

theorem keyTrace_wakeup_cons (es : List Event) :
    keyTrace (Event.wakeupLog :: es) = keyTrace es := rfl

theorem keyTrace_uptimeLog (n : Nat) :
    keyTrace [Event.uptimeLog n] = [TickAction.uptimeLogged] := rfl

theorem keyTrace_toggleOn (r : Except String ApiResponse) (s : Agent) :
    keyTrace (toggleDevice "ON" r s).2 = [TickAction.toggleOn] := by
  cases r <;> simp [toggleDevice, keyTrace, keyAction]

theorem keyTrace_sendHeartbeat (r : Except String ApiResponse) (s : Agent) :
    keyTrace (sendHeartbeat r s).2 = [TickAction.heartbeat] := by
  cases r <;> simp [sendHeartbeat, keyTrace, keyAction]

theorem keyTrace_getWalletDetails (r : Except String WalletResponse) (s : Agent) :
    keyTrace (getWalletDetails r s).2 = [TickAction.wallet] := by
  cases r with
  | ok resp => cases h : resp.error <;> simp [getWalletDetails, h, keyTrace, keyAction]
  | error e => simp [getWalletDetails, keyTrace, keyAction]

/-- C6: within one tick the key actions happen strictly in sequence —
toggle re-check, then heartbeat, then wallet details, then the uptime
log — and when `toggleState` is `false` at the start of the tick, a
fresh `"ON"` toggle is issued before the heartbeat call. -/
theorem C6_tick_sequence (env : TickEnv) (s : Agent)
    (hc : env.cycleThrows = false) :
    (s.toggleState = false →
      keyTrace (tick env s).2 =
        [TickAction.toggleOn, TickAction.heartbeat, TickAction.wallet,
         TickAction.uptimeLogged]) ∧
    (s.toggleState = true →
      keyTrace (tick env s).2 =
        [TickAction.heartbeat, TickAction.wallet, TickAction.uptimeLogged]) := by
  constructor <;> intro ht <;>
    by_cases hw : (s.cycleCount + 1) % 5 == 0 <;>
      simp [tick, hc, tickBody, ht, hw, keyTrace_append, keyTrace_nil,
        keyTrace_wakeup, keyTrace_wakeup_cons, keyTrace_uptimeLog,
        keyTrace_toggleOn, keyTrace_sendHeartbeat, keyTrace_getWalletDetails]

/-- C6 witness: a tick starting with the device marked off issues the
ON toggle, then the heartbeat, then the wallet call, then the uptime
log, in that order. -/
theorem C6_witness :
    offAgent.toggleState = false ∧
    keyTrace (tick ⟨Except.ok ⟨false⟩, Except.ok ⟨false⟩,
        Except.ok sampleWalletResp, false⟩ offAgent).2 =
      [TickAction.toggleOn, TickAction.heartbeat, TickAction.wallet,
       TickAction.uptimeLogged] :=
  ⟨by decide,
   (C6_tick_sequence ⟨Except.ok ⟨false⟩, Except.ok ⟨false⟩,
      Except.ok sampleWalletResp, false⟩ offAgent rfl).1 (by decide)⟩

theorem sigintHandler_spec (off : Except String ApiResponse) (s : Agent) :
    (sigintHandler off s).1.timerActive = false ∧
    countOffToggles (sigintHandler off s).2 = 1 ∧
    Event.processExit ∈ (sigintHandler off s).2 := by
  cases off <;>
    simp [sigintHandler, toggleDevice, countOffToggles, List.countP_cons]

/-- C7: when the operator interrupt fires, every agent's SIGINT handler
runs exactly once: the fleet produces one result per agent, and each
result has the timer cleared, exactly one `toggleDevice("OFF")` request
issued, and the process-exit step reached. -/
theorem C7_sigint_fleet (offs : List (Except String ApiResponse))
    (bots : List Agent) (hlen : offs.length = bots.length) :
    (fleetSigint offs bots).length = bots.length ∧
    ∀ r ∈ fleetSigint offs bots,
      r.1.timerActive = false ∧ countOffToggles r.2 = 1 ∧
      Event.processExit ∈ r.2 := by
  constructor
  · simp [fleetSigint, List.length_zip, hlen]
  · intro r hr
    simp only [fleetSigint, List.mem_map] at hr
    obtain ⟨⟨off, b⟩, _, rfl⟩ := hr
    exact sigintHandler_spec off b

/-- C7 witness: a one-agent fleet interrupted with a resolving OFF
toggle — one handler result, timer cleared, exactly one OFF toggle,
process exit reached. -/
theorem C7_witness :
    (fleetSigint [Except.ok ⟨false⟩] [newBot sampleAccount none]).length = 1 ∧
    ((sigintHandler (Except.ok ⟨false⟩) (newBot sampleAccount none)).1.timerActive
        = false ∧
     countOffToggles
        (sigintHandler (Except.ok ⟨false⟩) (newBot sampleAccount none)).2 = 1 ∧
     Event.processExit ∈
        (sigintHandler (Except.ok ⟨false⟩) (newBot sampleAccount none)).2) :=
  ⟨(C7_sigint_fleet [Except.ok ⟨false⟩] [newBot sampleAccount none] rfl).1,
   (C7_sigint_fleet [Except.ok ⟨false⟩] [newBot sampleAccount none] rfl).2 _
     (by decide)⟩

theorem tick_preserves (env : TickEnv) (s : Agent) :
    (tick env s).1.isInstalled = s.isInstalled ∧
    (tick env s).1.whitelistedUrls = s.whitelistedUrls := by
  cases hc : env.cycleThrows with
  | true => simp [tick, hc]
  | false =>
      cases ht : s.toggleState <;> cases hr : env.toggleResult <;>
        simp [tick, hc, tickBody, ht, hr, toggleDevice,
          sendHeartbeat_fst, getWalletDetails_fst]

theorem applyOp_preserves (op : BotOp) (s : Agent) :
    (applyOp op s).1.isInstalled = s.isInstalled ∧
    (applyOp op s).1.whitelistedUrls = s.whitelistedUrls := by
  cases op with
  | startCycle env =>
      cases h : env.toggleResult <;>
        simp [applyOp, startHeartbeatCycle, toggleDevice, sendHeartbeat_fst, h]
  | toggle state result => cases result <;> simp [applyOp, toggleDevice]
  | heartbeat result => simp [applyOp, sendHeartbeat_fst]
  | walletDetails result => simp [applyOp, getWalletDetails_fst]
  | timerTick env => simpa [applyOp] using tick_preserves env s
  | sigint r => cases r <;> simp [applyOp, sigintHandler, toggleDevice]

theorem runOps_preserves (ops : List BotOp) (s : Agent) :
    (runOps ops s).isInstalled = s.isInstalled ∧
    (runOps ops s).whitelistedUrls = s.whitelistedUrls := by
  induction ops generalizing s with
  | nil => exact ⟨rfl, rfl⟩
  | cons op ops ih =>
      have h := applyOp_preserves op s
      have h2 := ih (applyOp op s).1
      exact ⟨h2.1.trans h.1, h2.2.trans h.2⟩

/-- C8: every heartbeat payload emitted by `sendHeartbeat` — whatever
operations the agent has gone through since construction and whatever
the request outcome — carries `isInstalled = true` and the fixed
two-element whitelisted-domains list. -/
theorem C8_heartbeat_payload (acct : Account) (proxy : Option String)
    (ops : List BotOp) (res : Except String ApiResponse) (p : HeartbeatPayload)
    (hp : Event.heartbeatCall p ∈
      (sendHeartbeat res (runOps ops (newBot acct proxy))).2) :
    p.isInstalled = true ∧
    p.whitelistedUrls = ["naorisprotocol.network", "google.com"] := by
  have hmem : p = heartbeatPayload (runOps ops (newBot acct proxy)) := by
    cases res <;> simp [sendHeartbeat] at hp <;> exact hp
  have hpres := runOps_preserves ops (newBot acct proxy)
  rw [hmem]
  exact ⟨hpres.1.trans rfl, hpres.2.trans rfl⟩

/-- C8 witness: the payload of the first heartbeat of a fresh bot has
`isInstalled = true` and the fixed whitelist. -/
theorem C8_witness :
    Event.heartbeatCall (heartbeatPayload (newBot sampleAccount none)) ∈
      (sendHeartbeat (Except.ok ⟨false⟩)
        (runOps [] (newBot sampleAccount none))).2 ∧
    ((heartbeatPayload (newBot sampleAccount none)).isInstalled = true ∧
     (heartbeatPayload (newBot sampleAccount none)).whitelistedUrls =
       ["naorisprotocol.network", "google.com"]) :=
  ⟨by decide,
   C8_heartbeat_payload sampleAccount none [] (Except.ok ⟨false⟩)
     (heartbeatPayload (newBot sampleAccount none)) (by decide)⟩

/-- C10: when a wallet-details response reports no error but its
`details` lack `activeRatePerMinute` (or carry the falsy rate 0), the
wallet report is still produced, with estimated session earnings
`uptimeMinutes × 0 = 0` — no exception and no undefined value. -/
theorem C10_missing_rate (s : Agent) (resp : WalletResponse)
    (herr : resp.error = false)
    (hrate : resp.details.activeRatePerMinute = none ∨
             resp.details.activeRatePerMinute = some 0) :
    (getWalletDetails (Except.ok resp) s).2 =
      [Event.walletCall, Event.walletReport 0] := by
  have h : estimatedSessionEarnings s.uptimeMinutes resp.details = 0 := by
    rcases hrate with h | h <;> simp [estimatedSessionEarnings, h]
  simp [getWalletDetails, herr, h]

/-- C10 witness: a no-error response with the rate field absent, seen
after four minutes of uptime, reports earnings 0. -/
theorem C10_witness :
    noRateResp.error = false ∧
    (getWalletDetails (Except.ok noRateResp) uptime4Agent).2 =
      [Event.walletCall, Event.walletReport 0] :=
  ⟨rfl, C10_missing_rate uptime4Agent noRateResp rfl (Or.inl rfl)⟩

end Naoris
